import Mathlib

/-!
Verification development for the sailing-regates route planner.

The Python source is shallowly embedded over exact rationals:

* `app/utils/calculations.py` computes a haversine distance and an initial
  bearing with transcendental functions; `app/core/grid.py` additionally uses
  the geopy geodesic distance and shapely's corridor polygon.  Those geometric
  primitives are threaded through the embedding as explicit parameters (the
  `Geo` structure and a `corridor` predicate): every theorem below is stated
  for an arbitrary instantiation, hence in particular for the real haversine /
  geodesic / buffered-corridor instantiation, and concrete evaluations use
  simple rational instantiations whose values at the traced points agree with
  the real geometry (documented at each instance).
* All remaining arithmetic of the source (polar interpolation, wind scaling,
  edge times, the Poisson-disk bookkeeping, the default weather grid) is exact
  rational arithmetic and is embedded directly and executably.
* Python float `inf` (the travel time of an unsailable leg) is modelled by
  `(⊤ : WithTop ℚ)`.
-/

/-- A shapely `Point`: `x` is the longitude, `y` the latitude, in degrees. -/
structure Pt where
  x : ℚ
  y : ℚ
deriving DecidableEq, Repr

instance : Inhabited Pt := ⟨⟨0, 0⟩⟩

/-- The geometric primitives of the source that involve transcendental
functions, threaded as parameters:
`dist` is `app.utils.calculations.calculate_distance` (haversine, nautical
miles), `bearing` is `calculate_bearing` (initial bearing, degrees),
`gdist` is `PoissonDiskSampler._distance_nm` (geopy geodesic, nautical miles),
`wdist` is `WeatherData._calculate_distance` (kilometres, arguments
`lat1 lon1 lat2 lon2`). -/
structure Geo where
  dist : Pt → Pt → ℚ
  bearing : Pt → Pt → ℚ
  gdist : Pt → Pt → ℚ
  wdist : ℚ → ℚ → ℚ → ℚ → ℚ

/-! ### Polar model (`app/core/routing.py`, `SailingPolar`) -/

/-- Python's float modulo `x % m` for a positive modulus `m`. -/
def fmod (x m : ℚ) : ℚ := x - m * (⌊x / m⌋ : ℚ)

/-- Folding of the normalised angle into `[0, 180]`:
`if twa > 180: twa = 360 - twa` in `SailingPolar.get_speed`. -/
def foldRange (r : ℚ) : ℚ := if r > 180 then 360 - r else r

/-- The TWA normalisation of `SailingPolar.get_speed`:
`twa = abs(twa) % 360; if twa > 180: twa = 360 - twa`. -/
def foldTwa (twa : ℚ) : ℚ := foldRange (fmod |twa| 360)

/-- `PolarSpeed` dataclass: a knot of the polar table. -/
structure PolarSpeed where
  twa : ℚ
  speed : ℚ
deriving DecidableEq, Repr

/-- `SailingPolar.__init__` stores the twa-sorted knot coordinates. -/
structure SailingPolar where
  twa_values : List ℚ
  speed_values : List ℚ
deriving DecidableEq, Repr

/-- `SailingPolar.__init__`: sort the knots by `twa` and project the
coordinate lists. -/
def mkSailingPolar (data : List PolarSpeed) : SailingPolar :=
  let s := data.insertionSort (fun a b => a.twa ≤ b.twa)
  ⟨s.map (·.twa), s.map (·.speed)⟩

/-- `np.interp` on a scalar strictly inside the knot range (the only way the
source calls it): walk the sorted abscissae to the bracketing interval and
interpolate linearly. -/
def interpQ (x : ℚ) : List ℚ → List ℚ → ℚ
  | x1 :: x2 :: xs, y1 :: y2 :: ys =>
    if x ≤ x2 then y1 + (y2 - y1) * (x - x1) / (x2 - x1)
    else interpQ x (x2 :: xs) (y2 :: ys)
  | _, _ => 0

/-- The table lookup of `SailingPolar.get_speed` on an already-folded angle
`t ∈ [0,180]`: clamp at the end knots, otherwise interpolate. -/
def baseSpeed (sp : SailingPolar) (t : ℚ) : ℚ :=
  if t ≤ sp.twa_values.headD 0 then sp.speed_values.headD 0
  else if t ≥ sp.twa_values.getLastD 0 then sp.speed_values.getLastD 0
  else interpQ t sp.twa_values sp.speed_values

/-- `SailingPolar.get_speed`: fold the angle, look up the base speed, and
scale by `wind_factor = min(wind_speed / 10.0, 1.5)`. -/
def get_speed (sp : SailingPolar) (twa wind_speed : ℚ) : ℚ :=
  baseSpeed sp (foldTwa twa) * min (wind_speed / 10) (3 / 2)

/-- `DEFAULT_POLAR` of `app/core/routing.py`. -/
def DEFAULT_POLAR : SailingPolar :=
  mkSailingPolar
    [⟨0, 0⟩, ⟨30, 2⟩, ⟨45, 4⟩, ⟨60, 11/2⟩, ⟨90, 6⟩, ⟨120, 29/5⟩, ⟨150, 5⟩, ⟨180, 9/2⟩]

/-- Evaluation of the default polar's stored knot lists. -/
theorem DEFAULT_POLAR_eval : DEFAULT_POLAR =
    ⟨[0, 30, 45, 60, 90, 120, 150, 180], [0, 2, 4, 11/2, 6, 29/5, 5, 9/2]⟩ := by
  with_unfolding_all decide

example : get_speed DEFAULT_POLAR 90 15 = 9 := by with_unfolding_all decide
example : get_speed DEFAULT_POLAR 90 10 = 6 := by with_unfolding_all decide
example : get_speed DEFAULT_POLAR 0 5 = 0 := by with_unfolding_all decide
example : get_speed DEFAULT_POLAR 180 5 = 9/4 := by with_unfolding_all decide

/-! ### Wind field (`app/core/weather.py`) -/

/-- `WindData`: wind speed (m/s) and meteorological direction (degrees).
The optional `gust`/`timestamp` fields are never read by the planner and are
omitted. -/
structure WindData where
  speed : ℚ
  direction : ℚ
deriving DecidableEq, Repr

/-- `WeatherPoint`: a geographic sample of the wind field.  The optional
`temperature`/`pressure`/`humidity` fields are never read by the planner and
are omitted. -/
structure WeatherPoint where
  lat : ℚ
  lon : ℚ
  wind : WindData
deriving DecidableEq, Repr

/-- `WeatherData`: the list of weather samples. -/
structure WeatherData where
  points : List WeatherPoint
deriving DecidableEq, Repr

/-- The scan of `WeatherData.get_wind_at_point`: running nearest sample under
`_calculate_distance`, initial minimum `float(inf)` modelled by `none`,
strict `<` so the first minimiser wins. -/
def nearestWPAux (geo : Geo) (p : Pt) :
    List WeatherPoint → Option WeatherPoint → Option ℚ → Option WeatherPoint
  | [], best, _ => best
  | wp :: rest, best, bestD =>
    let d := geo.wdist p.y p.x wp.lat wp.lon
    match bestD with
    | none => nearestWPAux geo p rest (some wp) (some d)
    | some bd =>
      if d < bd then nearestWPAux geo p rest (some wp) (some d)
      else nearestWPAux geo p rest best bestD

/-- Nearest weather sample to `p`, if any. -/
def nearestWP (geo : Geo) (p : Pt) (l : List WeatherPoint) : Option WeatherPoint :=
  nearestWPAux geo p l none none

/-- `WeatherData.get_wind_at_point`: default wind `(5 m/s, 270°)` on an empty
field, otherwise the wind of the nearest sample. -/
def get_wind_at_point (geo : Geo) (w : WeatherData) (p : Pt) : WindData :=
  match nearestWP geo p w.points with
  | some wp => wp.wind
  | none => ⟨5, 270⟩

/-- Rectangular bounds passed to the weather service. -/
structure Bounds where
  north : ℚ
  south : ℚ
  east : ℚ
  west : ℚ
deriving DecidableEq, Repr

/-- `WeatherService._create_default_weather_data`: a 3×3 grid over the bounds
with wind speed `5.0 + (i + j) * 0.5` and direction `(270 + (i - j) * 10) % 360`.
The `KeyError` fallback branch is unreachable here because `Bounds` always
carries the four keys. -/
def create_default_weather_data (b : Bounds) : WeatherData :=
  ⟨([0, 1, 2] : List ℚ).flatMap (fun i => ([0, 1, 2] : List ℚ).map (fun j =>
    { lat := b.south + i * ((b.north - b.south) / 2)
      lon := b.west + j * ((b.east - b.west) / 2)
      wind := ⟨5 + (i + j) * (1/2), fmod (270 + (i - j) * 10) 360⟩ }))⟩

/-- `WeatherService.get_weather_data`.  The upstream HTTP fetches are
abstracted as the list of per-point outcomes `results` (a successful
`WeatherPoint` or an error message); the source adds the successes and falls
back to `_create_default_weather_data` when there is no API key, when no fetch
succeeded, or when the surrounding `try` fails (the last case is subsumed by
an empty success list). -/
def get_weather_data (api_key : Option String)
    (results : List (Except String WeatherPoint)) (b : Bounds) : WeatherData :=
  match api_key with
  | none => create_default_weather_data b
  | some _ =>
    let pts := results.filterMap (fun r => match r with
      | .ok p => some p
      | .error _ => none)
    if pts.isEmpty then create_default_weather_data b else ⟨pts⟩

/-! ### Graph builder and A* wrapper (`app/core/routing.py`, `RouteOptimizer`) -/

/-- An obstacle as seen by `RouteOptimizer._can_connect`: either a usable
geometry, abstracted by its segment-intersection test
`fun p q => line(p,q).intersects(geom)`, or `none` for an obstacle whose
geometry is absent / fails WKB conversion (the `try/except: continue`
branch). -/
def Obstacle : Type := Option (Pt → Pt → Bool)

/-- `RouteOptimizer._can_connect`: the straight segment between the points
must intersect no usable obstacle geometry; unusable obstacles are skipped. -/
def can_connect (p q : Pt) (obstacles : List Obstacle) : Bool :=
  obstacles.all (fun o => match o with
    | none => true
    | some f => !(f p q))

/-- The true wind angle of a leg as computed in
`RouteOptimizer._calculate_travel_time`: `twa = abs(bearing - wind.direction)`
with the wind sampled at the leg's start. -/
def legTwa (geo : Geo) (w : WeatherData) (p q : Pt) : ℚ :=
  |geo.bearing p q - (get_wind_at_point geo w p).direction|

/-- `RouteOptimizer._calculate_travel_time`: leg time in hours,
`distance / boat_speed` when the polar speed is positive and `float(inf)`
(modelled by `⊤`) otherwise. -/
def travelTime (geo : Geo) (sp : SailingPolar) (w : WeatherData) (p q : Pt) :
    WithTop ℚ :=
  let wind := get_wind_at_point geo w p
  let d := geo.dist p q
  let v := get_speed sp (legTwa geo w p q) wind.speed
  if 0 < v then ((d / v : ℚ) : WithTop ℚ) else ⊤

/-- Stored edge attributes (`distance=` and `time=`; `weight=` duplicates
`time` and is omitted). -/
structure EdgeData where
  dist : ℚ
  time : WithTop ℚ
deriving DecidableEq, Repr

/-- The index pairs `i < j` enumerated by the nested loops of
`RouteOptimizer.build_graph`. -/
def pairsUpTo (n : ℕ) : List (ℕ × ℕ) :=
  (List.range n).flatMap (fun i =>
    (List.range n).filterMap (fun j => if i < j then some (i, j) else none))

/-- `RouteOptimizer.build_graph`: for every pair `i < j` of grid points, insert
an edge exactly when the distance is at most `max_connection_distance = 5.0`
nautical miles (a hard-coded constant) and `_can_connect` holds; the edge
stores the distance and the travel time, with no condition on the boat
speed. -/
def build_graph (geo : Geo) (sp : SailingPolar) (obstacles : List Obstacle)
    (w : WeatherData) (pts : List Pt) : List (ℕ × ℕ × EdgeData) :=
  (pairsUpTo pts.length).filterMap (fun ij =>
    let p := pts.getD ij.1 default
    let q := pts.getD ij.2 default
    let d := geo.dist p q
    if d ≤ 5 then
      if can_connect p q obstacles then
        some (ij.1, ij.2, ⟨d, travelTime geo sp w p q⟩)
      else none
    else none)

/-- Undirected edge lookup (`graph.has_edge` / `graph[u][v]`). -/
def edgeLookup (g : List (ℕ × ℕ × EdgeData)) (u v : ℕ) : Option EdgeData :=
  (g.find? (fun e => (decide (e.1 = u) && decide (e.2.1 = v)) ||
    (decide (e.1 = v) && decide (e.2.1 = u)))).map (·.2.2)

/-- A vertex list is a walk of the graph: every consecutive pair is an edge. -/
def chainEdges (g : List (ℕ × ℕ × EdgeData)) : List ℕ → Bool
  | u :: v :: rest => (edgeLookup g u v).isSome && chainEdges g (v :: rest)
  | _ => true

/-- The total-time accumulation of `RouteOptimizer.find_optimal_route`: sum
the `time` attribute over consecutive pairs, skipping missing edges. -/
def totalTime (g : List (ℕ × ℕ × EdgeData)) : List ℕ → WithTop ℚ
  | u :: v :: rest =>
    (match edgeLookup g u v with
     | some e => e.time
     | none => 0) + totalTime g (v :: rest)
  | _ => 0

/-- `RouteOptimizer._heuristic_function`: straight distance divided by the
assumed average speed of 6 knots. -/
def heuristic (geo : Geo) (pts : List Pt) (n1 n2 : ℕ) : ℚ :=
  geo.dist (pts.getD n1 default) (pts.getD n2 default) / 6

/-- The scan of `RouteOptimizer._find_nearest_node`: running index of the
nearest grid point, initial minimum `float(inf)` modelled by `none`, strict
`<` so the first minimiser wins (initial index 0). -/
def findNearestAux (geo : Geo) (p : Pt) :
    List Pt → ℕ → ℕ → Option ℚ → ℕ
  | [], _, best, _ => best
  | q :: rest, i, best, bestD =>
    let d := geo.dist p q
    match bestD with
    | none => findNearestAux geo p rest (i + 1) i (some d)
    | some bd =>
      if d < bd then findNearestAux geo p rest (i + 1) i (some d)
      else findNearestAux geo p rest (i + 1) best bestD

/-- `RouteOptimizer._find_nearest_node`. -/
def findNearest (geo : Geo) (p : Pt) (pts : List Pt) : ℕ :=
  findNearestAux geo p pts 0 0 none

/-- The extended grid of `RouteOptimizer.find_optimal_route`: prepend the
start if no grid point is within 0.1 nm of it, append the end if no grid
point is within 0.1 nm of it (both membership tests run over the original
grid). -/
def extendedGrid (geo : Geo) (start fin : Pt) (grid : List Pt) : List Pt :=
  let startIn := grid.any (fun p => decide (geo.dist start p < 1/10))
  let endIn := grid.any (fun p => decide (geo.dist fin p < 1/10))
  let ext := if startIn then grid else start :: grid
  if endIn then ext else ext ++ [fin]

/-- The graph built by `find_optimal_route` over the extended grid. -/
def routeGraph (geo : Geo) (sp : SailingPolar) (obstacles : List Obstacle)
    (w : WeatherData) (start fin : Pt) (grid : List Pt) :
    List (ℕ × ℕ × EdgeData) :=
  build_graph geo sp obstacles w (extendedGrid geo start fin grid)

/-- The start vertex chosen by `find_optimal_route`. -/
def startNode (geo : Geo) (start fin : Pt) (grid : List Pt) : ℕ :=
  findNearest geo start (extendedGrid geo start fin grid)

/-- The goal vertex chosen by `find_optimal_route`. -/
def endNode (geo : Geo) (start fin : Pt) (grid : List Pt) : ℕ :=
  findNearest geo fin (extendedGrid geo start fin grid)

/-- Outcomes of the external `networkx.astar_path` call: a vertex path, the
`NetworkXNoPath` exception, or any other exception raised inside the `try`
block. -/
inductive SearchOutcome where
  | ok (path : List ℕ)
  | noPath
  | internal
deriving DecidableEq, Repr

/-- Modelled from the spec: the A* search itself lives in the external
`networkx` library, not in this repository; per its documented contract it
returns a vertex path and raises `NetworkXNoPath` exactly when the open set
is exhausted without reaching the goal.  This fuel-bounded best-first scan
realises that contract for the finite edge lists used here. -/
def searchAux (g : List (ℕ × ℕ × EdgeData)) (t : ℕ) :
    ℕ → List (ℕ × List ℕ) → List ℕ → SearchOutcome
  | 0, _, _ => .noPath
  | _, [], _ => .noPath
  | fuel + 1, (u, path) :: rest, visited =>
    if u = t then .ok path.reverse
    else if u ∈ visited then searchAux g t fuel rest visited
    else
      let ns := g.filterMap (fun e =>
        if e.1 = u then some e.2.1 else if e.2.1 = u then some e.1 else none)
      searchAux g t fuel (rest ++ ns.map (fun v => (v, v :: path))) (u :: visited)

/-- Modelled from the spec: entry point of the search model (see
`searchAux`). -/
def astarModel (g : List (ℕ × ℕ × EdgeData)) (s t : ℕ) : SearchOutcome :=
  searchAux g t ((g.length + 1) * (g.length + s + t + 2)) [(s, [s])] []

/-- `RouteOptimizer.find_optimal_route`, parametric in the search procedure
`astar` standing for `networkx.astar_path`: on a returned path, map the
vertices back to points and sum the edge times; on `NetworkXNoPath` **and on
any other exception** (the final `except Exception` branch) return the
two-point route `[start, end]` with the direct-leg travel time. -/
def find_optimal_route (geo : Geo) (sp : SailingPolar)
    (astar : List (ℕ × ℕ × EdgeData) → ℕ → ℕ → SearchOutcome)
    (start fin : Pt) (grid : List Pt) (obstacles : List Obstacle)
    (w : WeatherData) : List Pt × WithTop ℚ :=
  match astar (routeGraph geo sp obstacles w start fin grid)
      (startNode geo start fin grid) (endNode geo start fin grid) with
  | .ok path =>
    (path.map (fun n => (extendedGrid geo start fin grid).getD n default),
     totalTime (routeGraph geo sp obstacles w start fin grid) path)
  | .noPath => ([start, fin], travelTime geo sp w start fin)
  | .internal => ([start, fin], travelTime geo sp w start fin)

/-! ### Corridor sampler (`app/core/grid.py`) -/

/-- `GridConfig` dataclass. -/
structure GridConfig where
  min_distance_nm : ℚ
  max_attempts : ℕ
  corridor_margin_nm : ℚ
deriving DecidableEq, Repr

/-- The mutable state of a `PoissonDiskSampler` instance: the spatial hash
`self.grid` (a dict, modelled as an association list whose *first* match is
the most recent assignment, so insertion overwrites), `self.active_list` and
`self.samples`. -/
structure SamplerState where
  grid : List ((ℤ × ℤ) × Pt)
  active : List Pt
  samples : List Pt
deriving DecidableEq, Repr

/-- The draws consumed from Python's process-global `random` module:
`idxs` feeds `random.randint(0, len(active)-1)` and `offsets` feeds
`_generate_candidate` (each entry is the planar offset
`distance * (cos angle, sin angle)`, whose Euclidean norm the real generator
keeps in `[min_distance_nm/60, 2*min_distance_nm/60]` degrees). -/
structure RandState where
  idxs : List ℕ
  offsets : List (ℚ × ℚ)
deriving DecidableEq, Repr

/-- Fuel-bounded Newton iteration for the integer square root, mirroring
`Nat.sqrt.iter`; the fuel dominates the strictly decreasing guess, so it
never runs out (see `isqrt_eq_sqrt`). -/
def isqrtGo (n : ℕ) : ℕ → ℕ → ℕ
  | 0, g => g
  | f + 1, g =>
    let next := (g + n / g) / 2
    if next < g then isqrtGo n f next else g

/-- Kernel-reducible integer square root (`Nat.sqrt` is defined by
well-founded recursion, which does not reduce definitionally). -/
def isqrt (n : ℕ) : ℕ :=
  if n ≤ 1 then n else isqrtGo n (n / 2) (n / 2)

/-- The fuelled Newton iteration agrees with `Nat.sqrt.iter` whenever the
fuel dominates the guess. -/
theorem isqrtGo_eq_iter (n : ℕ) :
    ∀ f g, g ≤ f → isqrtGo n f g = Nat.sqrt.iter n g := by
  intro f
  induction f with
  | zero =>
    intro g hg
    interval_cases g
    · unfold Nat.sqrt.iter
      simp [isqrtGo]
  | succ f ih =>
    intro g hg
    unfold Nat.sqrt.iter
    simp only [isqrtGo]
    split
    · next h =>
      exact ih _ (by omega)
    · next h =>
      rfl

/-- `isqrt` agrees with `Nat.sqrt` everywhere. -/
theorem isqrt_eq_sqrt (n : ℕ) : isqrt n = Nat.sqrt n := by
  unfold isqrt Nat.sqrt
  split
  · rfl
  · exact isqrtGo_eq_iter n (n / 2) (n / 2) le_rfl

/-- Floor of the square root of a non-negative rational. -/
def ratSqrtFloor (q : ℚ) : ℤ :=
  if q ≤ 0 then 0 else ((isqrt (q.num.toNat * q.den)) / q.den : ℕ)

/-- The spatial-hash cell coordinate `int(x / self.cell_size)` with
`cell_size = min_distance_nm / sqrt(2)`: truncation towards zero of
`x * sqrt 2 / m`.  (This reproduces the source's unit mismatch: `x` is a
coordinate in degrees while `cell_size` is derived from a distance in
nautical miles.) -/
def cellIdx (x m : ℚ) : ℤ :=
  if 0 ≤ x then ratSqrtFloor (2 * x ^ 2 / m ^ 2)
  else -ratSqrtFloor (2 * x ^ 2 / m ^ 2)

/-- Dict lookup in the spatial hash (`key in self.grid` / `self.grid[key]`). -/
def gridLookup (g : List ((ℤ × ℤ) × Pt)) (k : ℤ × ℤ) : Option Pt :=
  (g.find? (fun e => decide (e.1 = k))).map (·.2)

/-- The 3×3 cell neighbourhood enumerated by `_is_valid_candidate`. -/
def neighborKeys (k : ℤ × ℤ) : List (ℤ × ℤ) :=
  ([-1, 0, 1] : List ℤ).flatMap (fun dx =>
    ([-1, 0, 1] : List ℤ).map (fun dy => (k.1 + dx, k.2 + dy)))

/-- `PoissonDiskSampler._is_valid_candidate`: the candidate is rejected iff
some hashed point in the 3×3 neighbourhood of its cell is closer than
`min_distance_nm` under `_distance_nm`. -/
def isValidCandidate (geo : Geo) (cfg : GridConfig)
    (grid : List ((ℤ × ℤ) × Pt)) (cand : Pt) : Bool :=
  let gx := cellIdx cand.x cfg.min_distance_nm
  let gy := cellIdx cand.y cfg.min_distance_nm
  (neighborKeys (gx, gy)).all (fun k =>
    match gridLookup grid k with
    | none => true
    | some p => decide (¬ geo.gdist cand p < cfg.min_distance_nm))

/-- `PoissonDiskSampler._add_sample`: append to `samples` and `active_list`
and (over)write the candidate into its spatial-hash cell. -/
def addSample (cfg : GridConfig) (p : Pt) (st : SamplerState) : SamplerState :=
  ⟨((cellIdx p.x cfg.min_distance_nm, cellIdx p.y cfg.min_distance_nm), p) :: st.grid,
   st.active ++ [p], st.samples ++ [p]⟩

/-- The inner `for _ in range(self.config.max_attempts)` loop of
`generate_grid`: draw candidates around `current` until one lies in the
corridor and passes `_is_valid_candidate`, returning the accepted candidate
(if any) and the remaining offset draws. -/
def tryAttempts (geo : Geo) (cfg : GridConfig) (corridor : Pt → Bool)
    (current : Pt) (st : SamplerState) :
    ℕ → List (ℚ × ℚ) → Option Pt × List (ℚ × ℚ)
  | 0, offs => (none, offs)
  | k + 1, offs =>
    let o := offs.headD (0, 0)
    let rest := offs.tail
    let cand : Pt := ⟨current.x + o.1, current.y + o.2⟩
    if corridor cand && isValidCandidate geo cfg st.grid cand then
      (some cand, rest)
    else tryAttempts geo cfg corridor current st k rest

/-- The outer `while self.active_list` loop of `generate_grid`, fuel-bounded:
pick the active point indexed by the next `randint` draw, try to grow a
sample around it, and retire it after `max_attempts` failures. -/
def sampleLoop (geo : Geo) (cfg : GridConfig) (corridor : Pt → Bool) :
    ℕ → SamplerState → RandState → SamplerState
  | 0, st, _ => st
  | fuel + 1, st, rng =>
    if st.active.isEmpty then st
    else
      let idx := rng.idxs.headD 0 % st.active.length
      let current := st.active.getD idx default
      match tryAttempts geo cfg corridor current st cfg.max_attempts rng.offsets with
      | (some cand, offs) =>
        sampleLoop geo cfg corridor fuel (addSample cfg cand st) ⟨rng.idxs.tail, offs⟩
      | (none, offs) =>
        sampleLoop geo cfg corridor fuel
          ⟨st.grid, st.active.eraseIdx idx, st.samples⟩ ⟨rng.idxs.tail, offs⟩

/-- `PoissonDiskSampler.generate_grid`.  The shapely corridor polygon
(buffered start–end segment, optionally intersected with the boundary) enters
as the containment predicate `corridor`; `st` is the sampler instance's state
left over from any earlier call, discarded by `self._reset()`.  After the
loop, the destination is appended iff no accepted sample lies within
`min_distance_nm` of it. -/
def generate_grid (geo : Geo) (cfg : GridConfig) (corridor : Pt → Bool)
    (st : SamplerState) (start fin : Pt) (rng : RandState) (fuel : ℕ) :
    List Pt :=
  if (sampleLoop geo cfg corridor fuel (addSample cfg start ⟨[], [], []⟩)
      rng).samples.any (fun s => decide (geo.gdist fin s < cfg.min_distance_nm))
  then (sampleLoop geo cfg corridor fuel (addSample cfg start ⟨[], [], []⟩)
    rng).samples
  else (sampleLoop geo cfg corridor fuel (addSample cfg start ⟨[], [], []⟩)
    rng).samples ++ [fin]

/-- `AdaptiveGridGenerator._add_strategic_points`: the route midpoint, added
iff it is not within `min_distance_nm` of an existing point. -/
def add_strategic_points (geo : Geo) (cfg : GridConfig) (start fin : Pt)
    (existing : List Pt) : List Pt :=
  let mid : Pt := ⟨(start.x + fin.x) / 2, (start.y + fin.y) / 2⟩
  if existing.any (fun p => decide (geo.gdist mid p < cfg.min_distance_nm))
  then []
  else [mid]

/-- `AdaptiveGridGenerator.generate_route_grid`: run the sampler (its
boundary-minus-obstacles region is folded into `corridor`) and extend with
the strategic points. -/
def generate_route_grid (geo : Geo) (cfg : GridConfig) (corridor : Pt → Bool)
    (st : SamplerState) (start fin : Pt) (rng : RandState) (fuel : ℕ) :
    List Pt :=
  generate_grid geo cfg corridor st start fin rng fuel ++
    add_strategic_points geo cfg start fin
      (generate_grid geo cfg corridor st start fin rng fuel)

/-! ### Concrete instantiations used by witnesses and counterexamples

`taxi` plays the role of the source's distance functions at the traced
points: all traced point pairs lie on the equator with equal latitude, where
the haversine / geodesic distance in nautical miles is `≈ 60·|Δlon|`
(60.0 nm resp. 60.1 nm per degree); every comparison below has slack well
beyond that 0.2 % discrepancy.  The bearing between an equatorial point and a
point due east of it is exactly 90°, which `geoT.bearing` returns. -/

/-- Scaled taxicab distance in nautical miles: `60·(|Δx| + |Δy|)`. -/
def taxi (p q : Pt) : ℚ := 60 * (|p.x - q.x| + |p.y - q.y|)

/-- Concrete geometry instantiation for equatorial eastward traces. -/
def geoT : Geo := ⟨taxi, fun _ _ => 90, taxi, fun _ _ _ _ => 0⟩

/-- Sampler configuration of the traced failing input: resolution 2.0 nm,
margin 0.5 nm (both inside the request bounds `[0.1, 2.0]` and
`[0.5, 10.0]`). -/
def cfgTrace : GridConfig := ⟨2, 30, 1/2⟩

/-- The corridor of the traced failing input: start `(0,0)`, end `(0.1, 0)`,
margin 0.5 nm = 1/120°.  The real shapely corridor (the buffered segment)
agrees with this rectangle at every candidate the traces generate. -/
def corridorTrace (p : Pt) : Bool :=
  decide (0 ≤ p.x) && decide (p.x ≤ 1/10) &&
  decide (-1/120 ≤ p.y) && decide (p.y ≤ 1/120)

/-- RNG draws of the C3 failing input: pick the start, accept `(1/25, 0)`;
pick the new sample, accept the offset `(-69/2000, 0)` (norm 0.0345° inside
the annulus `[1/30, 1/15]`°); then three retirement rounds of 30 rejected
off-corridor draws each. -/
def rngViolation : RandState :=
  ⟨[0, 1, 0, 0, 0], [(1/25, 0), (-69/2000, 0)] ++ List.replicate 90 (0, 1/25)⟩

set_option maxRecDepth 4000 in
example :
    generate_route_grid geoT cfgTrace corridorTrace ⟨[], [], []⟩
      ⟨0, 0⟩ ⟨1/10, 0⟩ rngViolation 10 =
    [⟨0, 0⟩, ⟨1/25, 0⟩, ⟨11/2000, 0⟩, ⟨1/10, 0⟩] := by
  with_unfolding_all decide

/-- RNG draws of the C4 failing input: accept `(1/25, 0)` around the start,
then `(69/2000, 0)` around that sample (landing 1.53 nm from the
destination), then three retirement rounds. -/
def rngNearEnd : RandState :=
  ⟨[0, 1, 0, 0, 0], [(1/25, 0), (69/2000, 0)] ++ List.replicate 90 (0, 1/25)⟩

set_option maxRecDepth 4000 in
example :
    generate_grid geoT cfgTrace corridorTrace ⟨[], [], []⟩
      ⟨0, 0⟩ ⟨1/10, 0⟩ rngNearEnd 10 =
    [⟨0, 0⟩, ⟨1/25, 0⟩, ⟨149/2000, 0⟩] := by
  with_unfolding_all decide

/-- RNG draws of the first C7 run: accept `(1/25, 0)` around the start, then
two retirement rounds. -/
def rngA : RandState :=
  ⟨[0, 0, 0], [(1/25, 0)] ++ List.replicate 60 (0, 1/25)⟩

/-- RNG draws of the second C7 run: accept `(1/20, 0)` around the start, then
two retirement rounds. -/
def rngB : RandState :=
  ⟨[0, 0, 0], [(1/20, 0)] ++ List.replicate 60 (0, 1/25)⟩

set_option maxRecDepth 4000 in
example :
    generate_grid geoT cfgTrace corridorTrace ⟨[], [], []⟩
      ⟨0, 0⟩ ⟨1/10, 0⟩ rngA 10 =
    [⟨0, 0⟩, ⟨1/25, 0⟩, ⟨1/10, 0⟩] := by
  with_unfolding_all decide

set_option maxRecDepth 4000 in
example :
    generate_grid geoT cfgTrace corridorTrace ⟨[], [], []⟩
      ⟨0, 0⟩ ⟨1/10, 0⟩ rngB 10 =
    [⟨0, 0⟩, ⟨1/20, 0⟩, ⟨1/10, 0⟩] := by
  with_unfolding_all decide

/-- Wind field with a single sample: 15 m/s from 0° (north). -/
def windStrong : WeatherData := ⟨[⟨0, 0, ⟨15, 0⟩⟩]⟩

/-- Wind field with a single sample: 5 m/s from 90°. -/
def windEast : WeatherData := ⟨[⟨0, 0, ⟨5, 90⟩⟩]⟩

/-- Empty wind field (the planner then uses the default 5 m/s from 270°). -/
def windNone : WeatherData := ⟨[]⟩

/-- Two equatorial points one nautical mile apart (under `geoT`). -/
def ptsOneNm : List Pt := [⟨0, 0⟩, ⟨1/60, 0⟩]

example : build_graph geoT DEFAULT_POLAR [] windStrong ptsOneNm =
    [(0, 1, ⟨1, ((1/9 : ℚ) : WithTop ℚ)⟩)] := by
  with_unfolding_all decide

example : build_graph geoT DEFAULT_POLAR [] windEast ptsOneNm =
    [(0, 1, ⟨1, ⊤⟩)] := by
  with_unfolding_all decide

example :
    find_optimal_route geoT DEFAULT_POLAR astarModel ⟨0, 0⟩ ⟨1, 0⟩ [] [] windNone =
    ([⟨0, 0⟩, ⟨1, 0⟩], ((80/3 : ℚ) : WithTop ℚ)) := by
  with_unfolding_all decide

example :
    astarModel (routeGraph geoT DEFAULT_POLAR [] windNone ⟨0, 0⟩ ⟨1, 0⟩ [])
      (startNode geoT ⟨0, 0⟩ ⟨1, 0⟩ []) (endNode geoT ⟨0, 0⟩ ⟨1, 0⟩ []) =
    .noPath := by
  with_unfolding_all decide

/-! ### Arithmetic lemmas about the angle normalisation -/

/-- `fmod` is non-negative for a positive modulus. -/
theorem fmod_nonneg (x m : ℚ) (hm : 0 < m) : 0 ≤ fmod x m := by
  have h := Int.floor_le (x / m)
  have : m * (⌊x / m⌋ : ℚ) ≤ m * (x / m) := by
    exact mul_le_mul_of_nonneg_left h (le_of_lt hm)
  rw [mul_div_cancel₀ x (ne_of_gt hm)] at this
  unfold fmod
  linarith

/-- `fmod` is below a positive modulus. -/
theorem fmod_lt (x m : ℚ) (hm : 0 < m) : fmod x m < m := by
  have h := Int.lt_floor_add_one (x / m)
  have : m * (x / m) < m * ((⌊x / m⌋ : ℚ) + 1) := by
    exact mul_lt_mul_of_pos_left h hm
  rw [mul_div_cancel₀ x (ne_of_gt hm)] at this
  unfold fmod
  nlinarith

/-- `fmod` fixes values already inside `[0, m)`. -/
theorem fmod_eq_self (x m : ℚ) (h0 : 0 ≤ x) (h1 : x < m) : fmod x m = x := by
  have hm : 0 < m := lt_of_le_of_lt h0 h1
  have : ⌊x / m⌋ = 0 := by
    rw [Int.floor_eq_zero_iff]
    constructor
    · exact div_nonneg h0 (le_of_lt hm)
    · rw [div_lt_one hm]; exact h1
  unfold fmod
  rw [this]
  push_cast
  ring

/-- `fmod` is invariant under shifts by integer multiples of the modulus. -/
theorem fmod_add_intMul (x m : ℚ) (k : ℤ) (hm : m ≠ 0) :
    fmod (x + k * m) m = fmod x m := by
  unfold fmod
  have : (x + k * m) / m = x / m + k := by
    field_simp
  rw [this, Int.floor_add_int]
  push_cast
  ring

/-- `fmod` of a negation: `0` stays `0`, otherwise the residue reflects. -/
theorem fmod_neg_360 (x : ℚ) :
    fmod (-x) 360 = if fmod x 360 = 0 then 0 else 360 - fmod x 360 := by
  have hx : x = 360 * (⌊x / 360⌋ : ℚ) + fmod x 360 := by
    unfold fmod; ring
  by_cases h : fmod x 360 = 0
  · rw [if_pos h]
    rw [h] at hx
    have : -x = 0 + (-⌊x / 360⌋ : ℤ) * 360 := by
      push_cast
      linarith
    rw [this, fmod_add_intMul 0 360 (-⌊x / 360⌋) (by norm_num)]
    rw [fmod_eq_self 0 360 le_rfl (by norm_num)]
  · rw [if_neg h]
    have hge : 0 ≤ fmod x 360 := fmod_nonneg x 360 (by norm_num)
    have hlt : fmod x 360 < 360 := fmod_lt x 360 (by norm_num)
    have : -x = (360 - fmod x 360) + (-⌊x / 360⌋ - 1 : ℤ) * 360 := by
      push_cast
      linarith
    rw [this, fmod_add_intMul _ 360 _ (by norm_num)]
    exact fmod_eq_self _ 360 (by linarith) (by
      have : 0 < fmod x 360 := lt_of_le_of_ne hge (Ne.symm h)
      linarith)

/-- Folding is insensitive to negating the argument of the residue. -/
theorem foldRange_fmod_neg (x : ℚ) :
    foldRange (fmod (-x) 360) = foldRange (fmod x 360) := by
  rw [fmod_neg_360]
  by_cases h : fmod x 360 = 0
  · rw [if_pos h, h]
  · rw [if_neg h]
    have hge : 0 ≤ fmod x 360 := fmod_nonneg x 360 (by norm_num)
    have hlt : fmod x 360 < 360 := fmod_lt x 360 (by norm_num)
    have hpos : 0 < fmod x 360 := lt_of_le_of_ne hge (Ne.symm h)
    unfold foldRange
    split_ifs with h1 h2 h2
    · linarith
    · linarith
    · linarith
    · linarith

/-- The TWA normalisation only depends on the signed residue. -/
theorem foldTwa_eq_foldRange (t : ℚ) : foldTwa t = foldRange (fmod t 360) := by
  unfold foldTwa
  rcases abs_cases t with ⟨h, _⟩ | ⟨h, _⟩
  · rw [h]
  · rw [h, foldRange_fmod_neg]

/-- C8 helper: the polar fold is even. -/
theorem foldTwa_neg (t : ℚ) : foldTwa (-t) = foldTwa t := by
  unfold foldTwa
  rw [abs_neg]

/-- C8 helper: the polar fold is symmetric about 180°. -/
theorem foldTwa_360_sub (t : ℚ) : foldTwa (360 - t) = foldTwa t := by
  rw [foldTwa_eq_foldRange, foldTwa_eq_foldRange]
  have : (360 : ℚ) - t = -t + (1 : ℤ) * 360 := by push_cast; ring
  rw [this, fmod_add_intMul (-t) 360 1 (by norm_num), foldRange_fmod_neg]

/-! ### Bounds on the polar speed -/

/-- A linear interpolation step stays between common bounds of its knots. -/
theorem interp_step_bounds (x1 x2 y1 y2 t lo hi : ℚ)
    (h1 : x1 < t) (h2 : t ≤ x2)
    (hlo1 : lo ≤ y1) (hhi1 : y1 ≤ hi) (hlo2 : lo ≤ y2) (hhi2 : y2 ≤ hi) :
    lo ≤ y1 + (y2 - y1) * (t - x1) / (x2 - x1) ∧
      y1 + (y2 - y1) * (t - x1) / (x2 - x1) ≤ hi := by
  have hd : 0 < x2 - x1 := by linarith
  set s : ℚ := (t - x1) / (x2 - x1) with hs
  have hs0 : 0 ≤ s := div_nonneg (by linarith) (le_of_lt hd)
  have hs1 : s ≤ 1 := by
    rw [hs, div_le_one hd]
    linarith
  have hval : y1 + (y2 - y1) * (t - x1) / (x2 - x1) = y1 + (y2 - y1) * s := by
    rw [hs]; ring
  rw [hval]
  constructor
  · nlinarith [mul_nonneg (sub_nonneg.mpr hlo2) hs0,
      mul_nonneg (sub_nonneg.mpr hlo1) (sub_nonneg.mpr hs1)]
  · nlinarith [mul_nonneg (sub_nonneg.mpr hhi2) hs0,
      mul_nonneg (sub_nonneg.mpr hhi1) (sub_nonneg.mpr hs1)]

/-- The default polar's base speed always lies in `[0, 6]`. -/
theorem baseSpeed_DP_bounds (t : ℚ) :
    0 ≤ baseSpeed DEFAULT_POLAR t ∧ baseSpeed DEFAULT_POLAR t ≤ 6 := by
  rw [DEFAULT_POLAR_eval]
  unfold baseSpeed
  simp only [List.headD, List.getLastD]
  norm_num
  split_ifs with h0 h180
  · norm_num
  · norm_num
  · simp only [interpQ]
    split_ifs with i30 i45 i60 i90 i120 i150 i180
    · exact interp_step_bounds 0 30 0 2 t 0 6 (by linarith) i30
        le_rfl (by norm_num) (by norm_num) (by norm_num)
    · exact interp_step_bounds 30 45 2 4 t 0 6 (by linarith) i45
        (by norm_num) (by norm_num) (by norm_num) (by norm_num)
    · exact interp_step_bounds 45 60 4 (11/2) t 0 6 (by linarith) i60
        (by norm_num) (by norm_num) (by norm_num) (by norm_num)
    · exact interp_step_bounds 60 90 (11/2) 6 t 0 6 (by linarith) i90
        (by norm_num) (by norm_num) (by norm_num) (by norm_num)
    · exact interp_step_bounds 90 120 6 (29/5) t 0 6 (by linarith) i120
        (by norm_num) (by norm_num) (by norm_num) (by norm_num)
    · exact interp_step_bounds 120 150 (29/5) 5 t 0 6 (by linarith) i150
        (by norm_num) (by norm_num) (by norm_num) (by norm_num)
    · exact interp_step_bounds 150 180 5 (9/2) t 0 6 (by linarith) i180
        (by norm_num) (by norm_num) (by norm_num) (by norm_num)
    · exact absurd (by linarith : t ≤ 180) i180

/-- The default polar speed is at most 6 knots whenever the wind is at most
the 10 m/s reference. -/
theorem get_speed_DP_le_six (twa w : ℚ) (hw : w ≤ 10) :
    get_speed DEFAULT_POLAR twa w ≤ 6 := by
  unfold get_speed
  obtain ⟨hb0, hb6⟩ := baseSpeed_DP_bounds (foldTwa twa)
  have hf1 : min (w / 10) (3 / 2) ≤ 1 := by
    calc min (w / 10) (3 / 2) ≤ w / 10 := min_le_left _ _
    _ ≤ 1 := by linarith
  rcases le_or_lt 0 (min (w / 10) (3 / 2)) with hf0 | hf0
  · nlinarith
  · nlinarith

/-- The default polar speed is never negative for non-negative wind. -/
theorem get_speed_DP_nonneg (twa w : ℚ) (hw : 0 ≤ w) :
    0 ≤ get_speed DEFAULT_POLAR twa w := by
  unfold get_speed
  obtain ⟨hb0, _⟩ := baseSpeed_DP_bounds (foldTwa twa)
  have hf0 : 0 ≤ min (w / 10) (3 / 2) := by
    apply le_min
    · linarith
    · norm_num
  exact mul_nonneg hb0 hf0

/-! ### Graph lemmas -/

/-- Membership in the enumerated index pairs. -/
theorem mem_pairsUpTo (n i j : ℕ) : (i, j) ∈ pairsUpTo n ↔ i < j ∧ j < n := by
  simp only [pairsUpTo, List.mem_flatMap, List.mem_filterMap, List.mem_range]
  constructor
  · rintro ⟨a, ha, b, hb, hab⟩
    split at hab
    · next h =>
      obtain ⟨rfl, rfl⟩ := Prod.mk.injEq .. ▸ Option.some.injEq .. ▸ hab
      exact ⟨h, hb⟩
    · exact absurd hab (by simp)
  · rintro ⟨hij, hjn⟩
    exact ⟨i, by omega, j, hjn, by rw [if_pos hij]⟩

/-- Full characterisation of the edges inserted by `build_graph`: a pair gets
an edge iff the indices are an ordered in-range pair, the distance is at most
the hard-coded 5.0 nm, and `_can_connect` holds; the stored attributes are
the distance and the travel time.  No boat-speed condition occurs. -/
theorem mem_build_graph (geo : Geo) (sp : SailingPolar)
    (obstacles : List Obstacle) (w : WeatherData) (pts : List Pt)
    (i j : ℕ) (e : EdgeData) :
    (i, j, e) ∈ build_graph geo sp obstacles w pts ↔
      i < j ∧ j < pts.length ∧
      geo.dist (pts.getD i default) (pts.getD j default) ≤ 5 ∧
      can_connect (pts.getD i default) (pts.getD j default) obstacles = true ∧
      e = ⟨geo.dist (pts.getD i default) (pts.getD j default),
           travelTime geo sp w (pts.getD i default) (pts.getD j default)⟩ := by
  simp only [build_graph, List.mem_filterMap]
  constructor
  · rintro ⟨⟨a, b⟩, hmem, hab⟩
    rw [mem_pairsUpTo] at hmem
    simp only at hab
    split at hab
    · split at hab
      · next hd hc =>
        obtain ⟨rfl, rfl, rfl⟩ : a = i ∧ b = j ∧
            (⟨geo.dist (pts.getD a default) (pts.getD b default),
              travelTime geo sp w (pts.getD a default) (pts.getD b default)⟩ :
              EdgeData) = e := by
          have := Option.some.injEq .. ▸ hab
          refine ⟨congrArg Prod.fst this, ?_, ?_⟩
          · exact congrArg Prod.fst (congrArg Prod.snd this)
          · exact congrArg Prod.snd (congrArg Prod.snd this)
        exact ⟨hmem.1, hmem.2, hd, hc, rfl⟩
      · exact absurd hab (by simp)
    · exact absurd hab (by simp)
  · rintro ⟨hij, hlen, hd, hc, rfl⟩
    refine ⟨(i, j), (mem_pairsUpTo _ _ _).mpr ⟨hij, hlen⟩, ?_⟩
    simp only
    rw [if_pos hd, if_pos hc]

/-- A successful undirected edge lookup produces a stored edge between the
two endpoints (in one of the two orientations). -/
theorem edgeLookup_mem (g : List (ℕ × ℕ × EdgeData)) (u v : ℕ) (e : EdgeData)
    (h : edgeLookup g u v = some e) :
    ∃ a b, (a, b, e) ∈ g ∧ ((a = u ∧ b = v) ∨ (a = v ∧ b = u)) := by
  unfold edgeLookup at h
  cases hf : List.find? (fun x => (decide (x.1 = u) && decide (x.2.1 = v)) ||
      (decide (x.1 = v) && decide (x.2.1 = u))) g with
  | none => rw [hf] at h; cases h
  | some x =>
    rw [hf] at h
    have hmem := List.mem_of_find?_eq_some hf
    have hpred := List.find?_some hf
    simp only [Bool.or_eq_true, Bool.and_eq_true, decide_eq_true_eq] at hpred
    simp only [Option.map_some', Option.some.injEq] at h
    refine ⟨x.1, x.2.1, ?_, hpred⟩
    rw [← h]
    exact hmem

/-! ### Wind lookup lemmas -/

/-- The nearest-sample scan only ever returns the running best or a list
element. -/
theorem nearestWPAux_mem (geo : Geo) (p : Pt) :
    ∀ (l : List WeatherPoint) (best : Option WeatherPoint) (bestD : Option ℚ)
      (wp : WeatherPoint), nearestWPAux geo p l best bestD = some wp →
      best = some wp ∨ wp ∈ l := by
  intro l
  induction l with
  | nil =>
    intro best bestD wp h
    simp only [nearestWPAux] at h
    exact Or.inl h
  | cons x rest ih =>
    intro best bestD wp h
    cases bestD with
    | none =>
      simp only [nearestWPAux] at h
      rcases ih _ _ _ h with h1 | h2
      · cases h1
        exact Or.inr (List.mem_cons_self _ _)
      · exact Or.inr (List.mem_cons_of_mem _ h2)
    | some bd =>
      simp only [nearestWPAux] at h
      split at h
      · rcases ih _ _ _ h with h1 | h2
        · cases h1
          exact Or.inr (List.mem_cons_self _ _)
        · exact Or.inr (List.mem_cons_of_mem _ h2)
      · rcases ih _ _ _ h with h1 | h2
        · exact Or.inl h1
        · exact Or.inr (List.mem_cons_of_mem _ h2)

/-- The wind returned for any point is either the default `(5, 270)` or the
wind of one of the field's samples. -/
theorem get_wind_at_point_cases (geo : Geo) (w : WeatherData) (p : Pt) :
    get_wind_at_point geo w p = ⟨5, 270⟩ ∨
      ∃ wp ∈ w.points, get_wind_at_point geo w p = wp.wind := by
  unfold get_wind_at_point
  cases hn : nearestWP geo p w.points with
  | none => exact Or.inl rfl
  | some wp =>
    rcases nearestWPAux_mem geo p w.points none none wp hn with h1 | h2
    · cases h1
    · exact Or.inr ⟨wp, h2, rfl⟩

/-- If every sample's wind speed is at most 10 m/s, so is the looked-up
wind speed (the default is 5 m/s). -/
theorem get_wind_speed_le (geo : Geo) (w : WeatherData) (p : Pt)
    (hw : ∀ wp ∈ w.points, wp.wind.speed ≤ 10) :
    (get_wind_at_point geo w p).speed ≤ 10 := by
  rcases get_wind_at_point_cases geo w p with h | ⟨wp, hmem, h⟩
  · rw [h]; norm_num
  · rw [h]; exact hw wp hmem

/-! ### Admissibility machinery (C1) -/

/-- Zeta-reduced form of `travelTime`. -/
theorem travelTime_eq_ite (geo : Geo) (sp : SailingPolar) (w : WeatherData)
    (p q : Pt) :
    travelTime geo sp w p q =
      if 0 < get_speed sp (legTwa geo w p q) (get_wind_at_point geo w p).speed
      then ((geo.dist p q /
        get_speed sp (legTwa geo w p q) (get_wind_at_point geo w p).speed : ℚ) :
        WithTop ℚ)
      else ⊤ := rfl

/-- In a graph built under winds of at most 10 m/s with the default polar,
every stored edge time is at least `distance / 6` (the heuristic's value for
that leg): the boat speed cannot exceed 6 kts, and an unsailable leg has
time `⊤`. -/
theorem travelTime_ge_dist_div_six (geo : Geo) (w : WeatherData) (p q : Pt)
    (hw : ∀ wp ∈ w.points, wp.wind.speed ≤ 10) (hd : 0 ≤ geo.dist p q) :
    ((geo.dist p q / 6 : ℚ) : WithTop ℚ) ≤ travelTime geo DEFAULT_POLAR w p q := by
  rw [travelTime_eq_ite]
  split_ifs with hv
  · rw [WithTop.coe_le_coe]
    have hv6 : get_speed DEFAULT_POLAR (legTwa geo w p q)
        (get_wind_at_point geo w p).speed ≤ 6 :=
      get_speed_DP_le_six _ _ (get_wind_speed_le geo w p hw)
    rw [div_le_div_iff₀ (by norm_num) hv]
    nlinarith
  · exact le_top

/-- C1 amendment, core induction: under winds of at most 10 m/s, the
heuristic `distance/6` under-estimates the accumulated edge time of every
walk of the built graph, provided the distance function is a symmetric
non-negative function obeying the triangle inequality (as the haversine
distance is). -/
theorem heuristic_le_totalTime_aux (geo : Geo)
    (hsym : ∀ p q, geo.dist p q = geo.dist q p)
    (htri : ∀ p q r, geo.dist p r ≤ geo.dist p q + geo.dist q r)
    (hnn : ∀ p q, 0 ≤ geo.dist p q)
    (hself : ∀ p, geo.dist p p = 0)
    (obstacles : List Obstacle) (w : WeatherData)
    (hw : ∀ wp ∈ w.points, wp.wind.speed ≤ 10) (pts : List Pt) :
    ∀ (path : List ℕ) (n goal : ℕ),
      chainEdges (build_graph geo DEFAULT_POLAR obstacles w pts) path = true →
      path.head? = some n → path.getLast? = some goal →
      ((heuristic geo pts n goal : ℚ) : WithTop ℚ) ≤
        totalTime (build_graph geo DEFAULT_POLAR obstacles w pts) path := by
  intro path
  induction path with
  | nil =>
    intro n goal _ hhead _
    cases hhead
  | cons u tail ih =>
    intro n goal hchain hhead hlast
    have hu : u = n := by
      simp only [List.head?_cons, Option.some.injEq] at hhead
      exact hhead
    subst hu
    cases tail with
    | nil =>
      have hg : u = goal := by
        simp only [List.getLast?_singleton, Option.some.injEq] at hlast
        exact hlast
      subst hg
      unfold heuristic
      rw [hself, zero_div]
      simp only [totalTime]
      rw [WithTop.coe_zero]
    | cons v rest =>
      simp only [chainEdges, Bool.and_eq_true, Option.isSome_iff_exists] at hchain
      obtain ⟨⟨e, he⟩, hchain2⟩ := hchain
      rw [List.getLast?_cons_cons] at hlast
      have ihv := ih v goal hchain2 (by simp) hlast
      simp only [totalTime, he]
      have hedge : ((geo.dist (pts.getD u default) (pts.getD v default) / 6 : ℚ) :
          WithTop ℚ) ≤ e.time := by
        obtain ⟨a, b, hmem, hor⟩ := edgeLookup_mem _ u v e he
        rw [mem_build_graph] at hmem
        obtain ⟨_, _, _, _, rfl⟩ := hmem
        rcases hor with ⟨rfl, rfl⟩ | ⟨rfl, rfl⟩
        · exact travelTime_ge_dist_div_six geo w _ _ hw (hnn _ _)
        · rw [hsym]
          exact travelTime_ge_dist_div_six geo w _ _ hw (hnn _ _)
      have htriangle : (heuristic geo pts u goal : ℚ) ≤
          geo.dist (pts.getD u default) (pts.getD v default) / 6 +
            heuristic geo pts v goal := by
        unfold heuristic
        have := htri (pts.getD u default) (pts.getD v default) (pts.getD goal default)
        linarith
      calc ((heuristic geo pts u goal : ℚ) : WithTop ℚ)
          ≤ ((geo.dist (pts.getD u default) (pts.getD v default) / 6 +
              heuristic geo pts v goal : ℚ) : WithTop ℚ) := by
            rw [WithTop.coe_le_coe]; exact htriangle
        _ = ((geo.dist (pts.getD u default) (pts.getD v default) / 6 : ℚ) :
              WithTop ℚ) + ((heuristic geo pts v goal : ℚ) : WithTop ℚ) := by
            rw [← WithTop.coe_add]
        _ ≤ e.time + totalTime (build_graph geo DEFAULT_POLAR obstacles w pts)
              (v :: rest) := add_le_add hedge ihv

/-! ### Sampler lemmas -/

/-- The sampling loop never removes accepted samples. -/
theorem sampleLoop_samples_mono (geo : Geo) (cfg : GridConfig)
    (corridor : Pt → Bool) :
    ∀ (fuel : ℕ) (st : SamplerState) (rng : RandState) (s : Pt),
      s ∈ st.samples → s ∈ (sampleLoop geo cfg corridor fuel st rng).samples := by
  intro fuel
  induction fuel with
  | zero =>
    intro st rng s hs
    simpa only [sampleLoop] using hs
  | succ f ih =>
    intro st rng s hs
    simp only [sampleLoop]
    split
    · exact hs
    · split
      · apply ih
        simp only [addSample, List.mem_append]
        exact Or.inl hs
      · apply ih
        exact hs

/-- The sampler's output always contains the start point. -/
theorem generate_grid_start_mem (geo : Geo) (cfg : GridConfig)
    (corridor : Pt → Bool) (st : SamplerState) (start fin : Pt)
    (rng : RandState) (fuel : ℕ) :
    start ∈ generate_grid geo cfg corridor st start fin rng fuel := by
  unfold generate_grid
  have h1 : start ∈ (addSample cfg start ⟨[], [], []⟩).samples := by
    simp [addSample]
  have h2 := sampleLoop_samples_mono geo cfg corridor fuel
    (addSample cfg start ⟨[], [], []⟩) rng start h1
  split
  · exact h2
  · exact List.mem_append_left _ h2

/-- The sampler's output contains the destination, or else some accepted
sample within `min_distance_nm` of it (the appending guard of
`generate_grid`). -/
theorem generate_grid_end_mem_or_near (geo : Geo) (cfg : GridConfig)
    (corridor : Pt → Bool) (st : SamplerState) (start fin : Pt)
    (rng : RandState) (fuel : ℕ) :
    fin ∈ generate_grid geo cfg corridor st start fin rng fuel ∨
      ∃ s ∈ generate_grid geo cfg corridor st start fin rng fuel,
        geo.gdist fin s < cfg.min_distance_nm := by
  unfold generate_grid
  split
  · next hany =>
    simp only [List.any_eq_true, decide_eq_true_eq] at hany
    obtain ⟨s, hmem, hlt⟩ := hany
    exact Or.inr ⟨s, hmem, hlt⟩
  · exact Or.inl (List.mem_append_right _ (List.mem_singleton.mpr rfl))

/-- Membership transfers to the adaptive route grid (it only extends the
sampler output). -/
theorem generate_route_grid_mem_of (geo : Geo) (cfg : GridConfig)
    (corridor : Pt → Bool) (st : SamplerState) (start fin : Pt)
    (rng : RandState) (fuel : ℕ) (s : Pt)
    (hs : s ∈ generate_grid geo cfg corridor st start fin rng fuel) :
    s ∈ generate_route_grid geo cfg corridor st start fin rng fuel := by
  unfold generate_route_grid
  exact List.mem_append_left _ hs

/-! ### Properties of the concrete taxicab instantiation -/

/-- The taxicab instantiation is symmetric. -/
theorem taxi_symm (p q : Pt) : taxi p q = taxi q p := by
  unfold taxi
  rw [abs_sub_comm p.x q.x, abs_sub_comm p.y q.y]

/-- The taxicab instantiation obeys the triangle inequality. -/
theorem taxi_triangle (p q r : Pt) : taxi p r ≤ taxi p q + taxi q r := by
  unfold taxi
  have hx := abs_sub_le p.x q.x r.x
  have hy := abs_sub_le p.y q.y r.y
  linarith

/-- The taxicab instantiation is non-negative. -/
theorem taxi_nonneg (p q : Pt) : 0 ≤ taxi p q := by
  unfold taxi
  have hx := abs_nonneg (p.x - q.x)
  have hy := abs_nonneg (p.y - q.y)
  linarith

/-- The taxicab instantiation vanishes on the diagonal. -/
theorem taxi_self (p : Pt) : taxi p p = 0 := by
  unfold taxi
  simp

/-! ### The claims -/

/-- C1, counterexample: with the default polar and a 15 m/s wind the boat
reaches 9 kts, so the one-edge path from vertex 0 to the goal vertex 1 of the
built RouteGraph takes 1/9 h while the heuristic `distance_nm / 6` claims at
least 1/6 h — `h` over-estimates the minimum remaining time, refuting
admissibility (and with it the claimed optimality guarantee) as stated. -/
theorem heuristic_overestimates_at_strong_wind :
    (∀ wp ∈ windStrong.points, wp.wind.speed = 15) ∧
    chainEdges (build_graph geoT DEFAULT_POLAR [] windStrong ptsOneNm) [0, 1] = true ∧
    totalTime (build_graph geoT DEFAULT_POLAR [] windStrong ptsOneNm) [0, 1] <
      ((heuristic geoT ptsOneNm 0 1 : ℚ) : WithTop ℚ) := by
  with_unfolding_all decide

/-- C1, amended: when every wind sample is at most the 10 m/s reference wind
(scaling factor at most 1), the default polar yields at most 6 kts, and the
heuristic `distance_nm / 6` is admissible: it under-estimates the total edge
time of every walk of the built RouteGraph from `n` to `goal` — for any
symmetric non-negative distance function obeying the triangle inequality, as
the haversine distance does.  For winds above 10 m/s the 1.5× cap allows
9 kts and admissibility fails (see the counterexample). -/
theorem heuristic_admissible_of_wind_le_ten (geo : Geo)
    (hsym : ∀ p q, geo.dist p q = geo.dist q p)
    (htri : ∀ p q r, geo.dist p r ≤ geo.dist p q + geo.dist q r)
    (hnn : ∀ p q, 0 ≤ geo.dist p q)
    (hself : ∀ p, geo.dist p p = 0)
    (obstacles : List Obstacle) (w : WeatherData)
    (hw : ∀ wp ∈ w.points, wp.wind.speed ≤ 10) (pts : List Pt)
    (path : List ℕ) (n goal : ℕ)
    (hchain : chainEdges (build_graph geo DEFAULT_POLAR obstacles w pts) path = true)
    (hhead : path.head? = some n) (hlast : path.getLast? = some goal) :
    ((heuristic geo pts n goal : ℚ) : WithTop ℚ) ≤
      totalTime (build_graph geo DEFAULT_POLAR obstacles w pts) path :=
  heuristic_le_totalTime_aux geo hsym htri hnn hself obstacles w hw pts path n goal
    hchain hhead hlast

/-- C1, witness: the admissibility bound applied to the one-edge walk `[0,1]`
of the graph built from two points 1 nm apart under the default 5 m/s wind:
1/6 h ≤ 4/9 h. -/
theorem heuristic_admissible_of_wind_le_ten_witness :
    ((heuristic geoT ptsOneNm 0 1 : ℚ) : WithTop ℚ) ≤
      totalTime (build_graph geoT DEFAULT_POLAR [] windNone ptsOneNm) [0, 1] :=
  heuristic_admissible_of_wind_le_ten geoT taxi_symm taxi_triangle taxi_nonneg
    taxi_self [] windNone (by intro wp hwp; simp [windNone] at hwp) ptsOneNm
    [0, 1] 0 1 (by with_unfolding_all decide) rfl rfl

/-- C2, counterexample: with the wind blowing along the leg the polar speed
is 0, yet `build_graph` still inserts the edge — with travel time
`float(inf)` — because edge insertion checks only the distance and the
obstacle test, never the boat speed. -/
theorem zero_speed_edge_inserted :
    get_speed DEFAULT_POLAR
      (legTwa geoT windEast ⟨0, 0⟩ ⟨1/60, 0⟩)
      (get_wind_at_point geoT windEast ⟨0, 0⟩).speed = 0 ∧
    build_graph geoT DEFAULT_POLAR [] windEast ptsOneNm =
      [(0, 1, ⟨1, ⊤⟩)] := by
  with_unfolding_all decide

/-- C2, amended: for a candidate pair within the 5 nm connection distance and
passing the obstacle test, a boat speed of 0 does **not** discard the edge:
the edge is inserted with travel time `float(inf)` (`⊤`). -/
theorem build_graph_inserts_zero_speed_edges (geo : Geo) (sp : SailingPolar)
    (obstacles : List Obstacle) (w : WeatherData) (pts : List Pt) (i j : ℕ)
    (hij : i < j) (hj : j < pts.length)
    (hd : geo.dist (pts.getD i default) (pts.getD j default) ≤ 5)
    (hc : can_connect (pts.getD i default) (pts.getD j default) obstacles = true)
    (hv : get_speed sp (legTwa geo w (pts.getD i default) (pts.getD j default))
      (get_wind_at_point geo w (pts.getD i default)).speed ≤ 0) :
    (i, j, (⟨geo.dist (pts.getD i default) (pts.getD j default), ⊤⟩ : EdgeData)) ∈
      build_graph geo sp obstacles w pts := by
  rw [mem_build_graph]
  refine ⟨hij, hj, hd, hc, ?_⟩
  rw [travelTime_eq_ite, if_neg (not_lt.mpr hv)]

/-- C2, witness: the amended statement applied to the concrete zero-speed
instance. -/
theorem build_graph_inserts_zero_speed_edges_witness :
    (0, 1, (⟨geoT.dist (ptsOneNm.getD 0 default) (ptsOneNm.getD 1 default), ⊤⟩ :
      EdgeData)) ∈ build_graph geoT DEFAULT_POLAR [] windEast ptsOneNm :=
  build_graph_inserts_zero_speed_edges geoT DEFAULT_POLAR [] windEast ptsOneNm 0 1
    (by norm_num) (by with_unfolding_all decide) (by with_unfolding_all decide)
    (by with_unfolding_all decide) (by with_unfolding_all decide)

/-- C5, counterexample: with `grid_resolution_nm = 0.5` the claim's threshold
`5·grid_resolution_nm` is 2.5 nm, but `build_graph` inserts an edge between
points 4 nm apart: the actual cut-off is the hard-coded
`max_connection_distance = 5.0` nm, not a resolution-derived bound. -/
theorem edge_threshold_not_five_times_resolution :
    geoT.dist ⟨0, 0⟩ ⟨1/15, 0⟩ = 4 ∧ 5 * (1/2 : ℚ) < 4 ∧
    build_graph geoT DEFAULT_POLAR [] windNone [⟨0, 0⟩, ⟨1/15, 0⟩] =
      [(0, 1, ⟨4, ((16/9 : ℚ) : WithTop ℚ)⟩)] := by
  with_unfolding_all decide

/-- C5, amended: `build_graph` inserts an edge for an ordered in-range pair
iff the great-circle distance is at most the hard-coded 5.0 nm (independent
of the grid resolution) and the connecting segment passes `_can_connect`;
in particular every edge of the built graph satisfies the non-crossing
predicate. -/
theorem build_graph_edge_characterisation (geo : Geo) (sp : SailingPolar)
    (obstacles : List Obstacle) (w : WeatherData) (pts : List Pt) :
    (∀ i j e, (i, j, e) ∈ build_graph geo sp obstacles w pts ↔
      i < j ∧ j < pts.length ∧
      geo.dist (pts.getD i default) (pts.getD j default) ≤ 5 ∧
      can_connect (pts.getD i default) (pts.getD j default) obstacles = true ∧
      e = ⟨geo.dist (pts.getD i default) (pts.getD j default),
           travelTime geo sp w (pts.getD i default) (pts.getD j default)⟩) ∧
    (∀ x ∈ build_graph geo sp obstacles w pts,
      can_connect (pts.getD x.1 default) (pts.getD x.2.1 default) obstacles = true) := by
  constructor
  · intro i j e
    exact mem_build_graph geo sp obstacles w pts i j e
  · rintro ⟨i, j, e⟩ hx
    exact ((mem_build_graph geo sp obstacles w pts i j e).mp hx).2.2.2.1

set_option maxRecDepth 8000 in
/-- C3 (code bug), failing input evaluated: with resolution 2.0 nm, margin
0.5 nm, start `(0,0)` and end `(0.1, 0)` on the equator, the traced RNG draws
make the sampler accept `(0.04, 0)` (2.4 nm from the start, overwriting the
start's spatial-hash cell — `cell_size` mixes nautical miles with degree
coordinates, so all these points share one cell and the dict keeps only the
last) and then accept `(0.0055, 0)`, which is 2.07 nm from the only hashed
point but only 0.33 nm from the start: the output contains two samples
0.33 nm apart, far below `min_distance_nm · (1 − ε)` even for ε = 10 %. -/
theorem sampler_min_distance_violation :
    (⟨0, 0⟩ : Pt) ∈ generate_route_grid geoT cfgTrace corridorTrace ⟨[], [], []⟩
        ⟨0, 0⟩ ⟨1/10, 0⟩ rngViolation 10 ∧
    (⟨11/2000, 0⟩ : Pt) ∈ generate_route_grid geoT cfgTrace corridorTrace
        ⟨[], [], []⟩ ⟨0, 0⟩ ⟨1/10, 0⟩ rngViolation 10 ∧
    geoT.gdist ⟨0, 0⟩ ⟨11/2000, 0⟩ = 33/100 ∧
    (33/100 : ℚ) < cfgTrace.min_distance_nm * (9/10) := by
  with_unfolding_all decide

set_option maxRecDepth 8000 in
/-- C4, counterexample: the destination `(0.1, 0)` is **not** in the sampler
output: the traced RNG draws accept a sample 1.53 nm from it (closer than
`min_distance_nm = 2`), so the final guard skips appending the destination,
and no accepted sample equals it. -/
theorem sampler_output_can_omit_destination :
    ¬ ((⟨1/10, 0⟩ : Pt) ∈ generate_grid geoT cfgTrace corridorTrace ⟨[], [], []⟩
        ⟨0, 0⟩ ⟨1/10, 0⟩ rngNearEnd 10) := by
  with_unfolding_all decide

/-- C4, amended: the sampler output always contains the origin, and contains
the destination **or** an accepted sample within `min_distance_nm` of the
destination (the source appends the destination only in the latter's
absence). -/
theorem sampler_contains_start_and_end_or_near (geo : Geo) (cfg : GridConfig)
    (corridor : Pt → Bool) (st : SamplerState) (start fin : Pt)
    (rng : RandState) (fuel : ℕ) :
    start ∈ generate_grid geo cfg corridor st start fin rng fuel ∧
      (fin ∈ generate_grid geo cfg corridor st start fin rng fuel ∨
        ∃ s ∈ generate_grid geo cfg corridor st start fin rng fuel,
          geo.gdist fin s < cfg.min_distance_nm) :=
  ⟨generate_grid_start_mem geo cfg corridor st start fin rng fuel,
   generate_grid_end_mem_or_near geo cfg corridor st start fin rng fuel⟩

/-- C6: when the A* search exhausts its open set without reaching the goal
(`NetworkXNoPath`), `find_optimal_route` returns exactly the degenerate
two-point route `[start, end]` together with `_calculate_travel_time(start,
end)`, the direct-leg time computed from the wind sampled at the start. -/
theorem find_optimal_route_no_path_fallback (geo : Geo) (sp : SailingPolar)
    (start fin : Pt) (grid : List Pt) (obstacles : List Obstacle)
    (w : WeatherData)
    (h : astarModel (routeGraph geo sp obstacles w start fin grid)
        (startNode geo start fin grid) (endNode geo start fin grid) = .noPath) :
    find_optimal_route geo sp astarModel start fin grid obstacles w =
      ([start, fin], travelTime geo sp w start fin) := by
  unfold find_optimal_route
  rw [h]

/-- C6, witness: two points 60 nm apart with no grid produce an edgeless
graph; the search exhausts and the fallback two-point route is returned. -/
theorem find_optimal_route_no_path_fallback_witness :
    find_optimal_route geoT DEFAULT_POLAR astarModel ⟨0, 0⟩ ⟨1, 0⟩ [] [] windNone =
      ([⟨0, 0⟩, ⟨1, 0⟩], travelTime geoT DEFAULT_POLAR windNone ⟨0, 0⟩ ⟨1, 0⟩) :=
  find_optimal_route_no_path_fallback geoT DEFAULT_POLAR ⟨0, 0⟩ ⟨1, 0⟩ [] []
    windNone (by with_unfolding_all decide)

set_option maxRecDepth 8000 in
/-- C7, counterexample: two sampler invocations with identical request inputs
(geometry, configuration, corridor, endpoints, fuel and prior instance state)
but different draws from the process-global `random` module return different
sample sets — there is no per-request seeded RNG, so the planner is not a
function of its request arguments alone. -/
theorem sampler_depends_on_global_rng :
    generate_grid geoT cfgTrace corridorTrace ⟨[], [], []⟩ ⟨0, 0⟩ ⟨1/10, 0⟩
        rngA 10 ≠
      generate_grid geoT cfgTrace corridorTrace ⟨[], [], []⟩ ⟨0, 0⟩ ⟨1/10, 0⟩
        rngB 10 := by
  with_unfolding_all decide

/-- C7, amended: determinism holds only relative to the global RNG draw
sequence: `generate_grid` begins with `self._reset()`, so its output is
independent of the sampler instance's leftover state and is a function of
the request inputs **and** the consumed RNG draws; identical inputs alone do
not determine the output (see the counterexample). -/
theorem generate_grid_state_independent (geo : Geo) (cfg : GridConfig)
    (corridor : Pt → Bool) (st1 st2 : SamplerState) (start fin : Pt)
    (rng : RandState) (fuel : ℕ) :
    generate_grid geo cfg corridor st1 start fin rng fuel =
      generate_grid geo cfg corridor st2 start fin rng fuel := rfl

/-- C10, counterexample: an internal error raised inside the search (any
exception other than `NetworkXNoPath`) does **not** propagate: the
`except Exception` branch converts it into the fallback two-point route with
the direct-leg time, here `([start, end], 80/3 h)`. -/
theorem internal_error_returns_route :
    find_optimal_route geoT DEFAULT_POLAR (fun _ _ _ => .internal) ⟨0, 0⟩ ⟨1, 0⟩
        [] [] windNone =
      ([⟨0, 0⟩, ⟨1, 0⟩], ((80/3 : ℚ) : WithTop ℚ)) := by
  with_unfolding_all decide

/-- C10, amended: every erroring outcome of the search — `NetworkXNoPath` or
an arbitrary internal exception — is caught by `find_optimal_route` and
converted into the fallback two-point route with the direct-leg travel time;
no error propagates to the caller. -/
theorem find_optimal_route_swallows_search_errors (geo : Geo)
    (sp : SailingPolar)
    (astar : List (ℕ × ℕ × EdgeData) → ℕ → ℕ → SearchOutcome)
    (start fin : Pt) (grid : List Pt) (obstacles : List Obstacle)
    (w : WeatherData)
    (h : astar (routeGraph geo sp obstacles w start fin grid)
        (startNode geo start fin grid) (endNode geo start fin grid) = .internal) :
    find_optimal_route geo sp astar start fin grid obstacles w =
      ([start, fin], travelTime geo sp w start fin) := by
  unfold find_optimal_route
  rw [h]

/-- C10, witness: the amended statement applied to a search procedure that
always raises an internal error. -/
theorem find_optimal_route_swallows_search_errors_witness :
    find_optimal_route geoT DEFAULT_POLAR (fun _ _ _ => .internal) ⟨0, 0⟩
        ⟨1/15, 0⟩ [] [] windNone =
      ([⟨0, 0⟩, ⟨1/15, 0⟩], travelTime geoT DEFAULT_POLAR windNone ⟨0, 0⟩ ⟨1/15, 0⟩) :=
  find_optimal_route_swallows_search_errors geoT DEFAULT_POLAR
    (fun _ _ _ => .internal) ⟨0, 0⟩ ⟨1/15, 0⟩ [] [] windNone rfl

/-- C8: the polar speed is symmetric around 0/180 — `boat_speed(twa, w) =
boat_speed(-twa, w) = boat_speed(360 - twa, w)` for every polar table — and,
for the default polar (whose base speeds are non-negative), monotone
non-decreasing in the wind speed and constant once the 1.5× scaling cap is
reached at `w ≥ 15` m/s. -/
theorem polar_symmetry_and_monotonicity :
    (∀ (sp : SailingPolar) (twa w : ℚ),
      get_speed sp (-twa) w = get_speed sp twa w ∧
      get_speed sp (360 - twa) w = get_speed sp twa w) ∧
    (∀ (twa w w' : ℚ), w ≤ w' →
      get_speed DEFAULT_POLAR twa w ≤ get_speed DEFAULT_POLAR twa w') ∧
    (∀ (twa w : ℚ), 15 ≤ w →
      get_speed DEFAULT_POLAR twa w = get_speed DEFAULT_POLAR twa 15) := by
  refine ⟨?_, ?_, ?_⟩
  · intro sp twa w
    constructor
    · unfold get_speed
      rw [foldTwa_neg]
    · unfold get_speed
      rw [foldTwa_360_sub]
  · intro twa w w' hww
    unfold get_speed
    obtain ⟨hb0, _⟩ := baseSpeed_DP_bounds (foldTwa twa)
    apply mul_le_mul_of_nonneg_left _ hb0
    exact min_le_min (by linarith) le_rfl
  · intro twa w hw
    unfold get_speed
    have h1 : min (w / 10) (3 / 2 : ℚ) = 3 / 2 := min_eq_right (by linarith)
    have h2 : min ((15 : ℚ) / 10) (3 / 2) = 3 / 2 := by norm_num
    rw [h1, h2]

/-- C8, witness: the symmetry, monotonicity and cap statements evaluated at
concrete angles and winds. -/
theorem polar_symmetry_and_monotonicity_witness :
    get_speed DEFAULT_POLAR (-90) 5 = get_speed DEFAULT_POLAR 90 5 ∧
    get_speed DEFAULT_POLAR (360 - 90) 5 = get_speed DEFAULT_POLAR 90 5 ∧
    get_speed DEFAULT_POLAR 90 5 ≤ get_speed DEFAULT_POLAR 90 7 ∧
    get_speed DEFAULT_POLAR 90 20 = get_speed DEFAULT_POLAR 90 15 :=
  ⟨(polar_symmetry_and_monotonicity.1 DEFAULT_POLAR 90 5).1,
   (polar_symmetry_and_monotonicity.1 DEFAULT_POLAR 90 5).2,
   polar_symmetry_and_monotonicity.2.1 90 5 7 (by norm_num),
   polar_symmetry_and_monotonicity.2.2 90 20 (by norm_num)⟩

/-- C9, counterexample: the synthesised default field is a 3×3 grid but its
samples are **not** all `(5 m/s, 270°)`: the source varies them as
`5.0 + (i+j)·0.5` m/s and `270 + (i−j)·10` degrees, e.g. the last sample has
speed 7 m/s and direction 270°, and the second has direction 260°. -/
theorem default_weather_not_constant :
    ¬ (∀ wp ∈ (get_weather_data none [] ⟨274/5, 543/10, 19, 183/10⟩).points,
        wp.wind.speed = 5 ∧ wp.wind.direction = 270) := by
  with_unfolding_all decide

/-- C9, amended: on a missing API key or a fetch round with no successful
sample, the provider returns (without raising) the synthesised default field:
a 3×3 grid whose latitudes and longitudes span the bounds from south/west to
north/east, with wind speeds `5.0 + (i+j)·0.5 ∈ [5, 7]` m/s and directions
`270 + (i−j)·10 ∈ [250, 290]` degrees — not uniformly 5 m/s / 270°. -/
theorem default_weather_field_characterisation (b : Bounds)
    (results : List (Except String WeatherPoint)) (k : String) :
    get_weather_data none results b = create_default_weather_data b ∧
    get_weather_data (some k) [] b = create_default_weather_data b ∧
    (create_default_weather_data b).points.length = 9 ∧
    (∀ wp ∈ (create_default_weather_data b).points,
      5 ≤ wp.wind.speed ∧ wp.wind.speed ≤ 7 ∧
      250 ≤ wp.wind.direction ∧ wp.wind.direction ≤ 290) ∧
    (∃ wp ∈ (create_default_weather_data b).points,
      wp.lat = b.south ∧ wp.lon = b.west) ∧
    (∃ wp ∈ (create_default_weather_data b).points,
      wp.lat = b.north ∧ wp.lon = b.east) := by
  refine ⟨rfl, rfl, rfl, ?_, ?_, ?_⟩
  · intro wp hwp
    simp only [create_default_weather_data, List.mem_flatMap, List.mem_map,
      List.mem_cons, List.mem_singleton, List.not_mem_nil, or_false] at hwp
    obtain ⟨i, hi, j, hj, rfl⟩ := hwp
    rcases hi with rfl | rfl | rfl <;> rcases hj with rfl | rfl | rfl <;>
      refine ⟨by norm_num, by norm_num, ?_, ?_⟩ <;>
      · rw [fmod_eq_self _ _ (by norm_num) (by norm_num)]
        norm_num
  · refine ⟨⟨b.south + 0 * ((b.north - b.south) / 2),
      b.west + 0 * ((b.east - b.west) / 2), ⟨5 + ((0 : ℚ) + 0) * (1/2),
      fmod (270 + ((0 : ℚ) - 0) * 10) 360⟩⟩, ?_, by ring, by ring⟩
    simp only [create_default_weather_data, List.mem_flatMap, List.mem_map,
      List.mem_cons, List.mem_singleton]
    exact ⟨0, Or.inl rfl, 0, Or.inl rfl, rfl⟩
  · refine ⟨⟨b.south + 2 * ((b.north - b.south) / 2),
      b.west + 2 * ((b.east - b.west) / 2), ⟨5 + ((2 : ℚ) + 2) * (1/2),
      fmod (270 + ((2 : ℚ) - 2) * 10) 360⟩⟩, ?_, by ring, by ring⟩
    simp only [create_default_weather_data, List.mem_flatMap, List.mem_map,
      List.mem_cons, List.mem_singleton]
    exact ⟨2, by norm_num, 2, by norm_num, rfl⟩
